import Mathlib

/-!
Shallow embedding of the xcceptapay-api server (`src/server.js`), an Express +
Mongoose application.  The persistent MongoDB collection of users is modelled
as a `Store` (a list of stored documents plus a fresh-id counter), each route
handler as a pure function from the request data and the store to an HTTP-like
`Response` and the successor store.  Mongoose schema validation (required
fields, `min: 0`, enum constraints, the unique email index, defaults) is
modelled explicitly, following the `userSchema` declaration at
`src/server.js:18-34`.  bcrypt and the JWT library are external primitives and
are modelled abstractly by injective tagging functions; their randomness and
cryptographic strength are irrelevant to the properties proved here.
-/

set_option autoImplicit false

namespace XcceptaPay

/-- Json values, as produced by `res.json(...)` at the handler boundary. -/
inductive Json where
  | str (s : String)
  | num (n : Int)
  | arr (elems : List Json)
  | obj (fields : List (String × Json))

/-- Lookup of a top-level field of a Json object (used to state what a
response payload does or does not contain). -/
def Json.getField (j : Json) (k : String) : Option Json :=
  match j with
  | Json.obj fields => (fields.find? (fun kv => kv.fst == k)).map (fun kv => kv.snd)
  | _ => none

/-- An HTTP-like response: status code plus Json body, as sent with
`res.status(...).json(...)`. -/
structure Response where
  status : Nat
  body : Json

/-- An embedded transaction subdocument, after Mongoose casting
(`src/server.js:25-32`). -/
structure Transaction where
  date : String
  amount : Int
  recipient : String
  status : String
deriving DecidableEq

/-- A stored user document of the `User` model (`src/server.js:18-36`).
The `password` field holds the stored bcrypt hash.  Timestamps are
system-managed metadata and are not needed by any property proved here. -/
structure StoredUser where
  id : String
  username : String
  email : String
  password : String
  balance : Int
  wallet : String
  seed : String
  transaction_history : List Transaction
  role : String
deriving DecidableEq

/-- The persisted user collection together with a counter generating fresh
`_id` values (MongoDB assigns a fresh unique ObjectId on insert). -/
structure Store where
  users : List StoredUser
  nextId : Nat
deriving DecidableEq

/-- The authenticated principal placed on `req.user` by the auth middleware
(`src/server.js:47`). -/
structure Principal where
  id : String
  role : String
deriving DecidableEq

/-- Model of `bcrypt.hash` (with a fixed salt): an injective tag of the
plaintext.  Only determinism of verify-after-hash and non-emptiness of the
result matter to the claims. -/
def bcryptHash (pw : String) : String :=
  "$2a$10$" ++ pw

/-- Model of `bcrypt.compare`: true iff hashing the candidate plaintext
reproduces the stored hash. -/
def bcryptCompare (pw stored : String) : Bool :=
  bcryptHash pw == stored

/-- Payload of a JWT as signed at `src/server.js:88-92`: subject id, role,
issue time and expiry time (seconds). -/
structure JwtPayload where
  id : String
  role : String
  iat : Nat
  exp : Nat
deriving DecidableEq

/-- A signed token: payload plus signature over the payload. -/
structure Token where
  payload : JwtPayload
  sig : String
deriving DecidableEq

/-- Model of the HMAC signature of `jwt.sign`: a tag of the secret and the
payload fields. -/
def jwtSignature (secret : String) (p : JwtPayload) : String :=
  "HS256(" ++ secret ++ "," ++ p.id ++ "," ++ p.role ++ ","
    ++ toString p.iat ++ "," ++ toString p.exp ++ ")"

/-- Token lifetime in seconds: `expiresIn: "1d"` (`src/server.js:91`). -/
def tokenLifetime : Nat := 86400

/-- Model of `jwt.sign({ id, role }, secret, { expiresIn: "1d" })` at time
`now`. -/
def jwtSign (secret id role : String) (now : Nat) : Token :=
  let p : JwtPayload := { id := id, role := role, iat := now, exp := now + tokenLifetime }
  { payload := p, sig := jwtSignature secret p }

/-- Model of `jwt.verify`: succeeds iff the signature matches the payload and
the token is not expired (jsonwebtoken rejects once the current time reaches
`exp`). -/
def jwtVerify (secret : String) (t : Token) (now : Nat) : Option JwtPayload :=
  if t.sig = jwtSignature secret t.payload ∧ now < t.payload.exp then some t.payload else none

/-- Response constant helper for `{ error: msg }` bodies. -/
def errJson (msg : String) : Json :=
  Json.obj [("error", Json.str msg)]

/-- Response for a missing or non-Bearer Authorization header
(`src/server.js:42`). -/
def unauthorizedResponse : Response :=
  { status := 401, body := errJson "Unauthorized" }

/-- Response for a token that fails verification (`src/server.js:50`). -/
def invalidTokenResponse : Response :=
  { status := 401, body := errJson "Invalid token" }

/-- Response of the self-or-admin guard when it rejects
(`src/server.js:148,164,193,210`). -/
def forbiddenResponse : Response :=
  { status := 403, body := errJson "Forbidden" }

/-- Response of the admin-only guard when it rejects
(`src/server.js:113,134`). -/
def adminOnlyResponse : Response :=
  { status := 403, body := errJson "Forbidden: Admin only" }

/-- Response when the target user id does not exist
(`src/server.js:152,181,197,219`). -/
def userNotFoundResponse : Response :=
  { status := 404, body := errJson "User not found" }

/-- Uniform login failure response (`src/server.js:82,85`). -/
def invalidCredentialsResponse : Response :=
  { status := 400, body := errJson "Invalid credentials" }

/-- Duplicate-email registration failure (`src/server.js:62`). -/
def dupEmailResponse : Response :=
  { status := 400, body := errJson "Email already in use." }

/-- Model of `authMiddleware` (`src/server.js:39-52`): an absent header is
rejected 401 Unauthorized; an invalid or expired token is rejected 401
Invalid token; otherwise the principal `{ id, role }` from the decoded
payload is handed to the route handler. -/
def authMiddleware (secret : String) (now : Nat) (authToken : Option Token) :
    Except Response Principal :=
  match authToken with
  | none => Except.error unauthorizedResponse
  | some t =>
    match jwtVerify secret t now with
    | some decoded => Except.ok { id := decoded.id, role := decoded.role }
    | none => Except.error invalidTokenResponse

/-- Model of `User.findOne({ email })`. -/
def findOneByEmail (users : List StoredUser) (email : String) : Option StoredUser :=
  users.find? (fun u => u.email == email)

/-- Model of `User.findById(id)`. -/
def findById (users : List StoredUser) (id : String) : Option StoredUser :=
  users.find? (fun u => u.id == id)

/-- The self-or-admin authorization rule of the spec: the principal owns the
target account, or holds the admin role.  Each of the four protected
single-account handlers in the source implements its negation inline as
`req.user.id !== req.params.id && req.user.role !== "admin"`. -/
def selfOrAdmin (p : Principal) (targetUserId : String) : Bool :=
  p.id == targetUserId || p.role == "admin"

/-- Enum constraint of `transaction_history.status` (`src/server.js:30`). -/
def validStatus (s : String) : Bool :=
  s == "Success" || s == "Failed" || s == "Pending"

/-- Enum constraint of `role` (`src/server.js:33`). -/
def validRole (r : String) : Bool :=
  r == "user" || r == "admin"

/-- A transaction as present in a request body: every field may be absent.
`const transaction = req.body` (`src/server.js:212`). -/
structure TransactionBody where
  date : Option String
  amount : Option Int
  recipient : Option String
  status : Option String
deriving DecidableEq

/-- Mongoose casting of a body transaction into a subdocument, applying the
schema default `status: "Pending"`; absent required string fields are
modelled as the empty string, which Mongoose `required` equally rejects. -/
def castTransaction (b : TransactionBody) : Transaction :=
  { date := b.date.getD ""
    amount := b.amount.getD 0
    recipient := b.recipient.getD ""
    status := b.status.getD "Pending" }

/-- Mongoose validation of a body transaction against the subdocument schema
(`src/server.js:25-32`): `date` and `recipient` required (non-empty string),
`amount` required with `min: 0`, `status` in the enum (default "Pending"). -/
def validTxBody (b : TransactionBody) : Bool :=
  b.date.getD "" != "" && b.amount.isSome && decide (0 ≤ b.amount.getD 0)
    && b.recipient.getD "" != "" && validStatus (b.status.getD "Pending")

/-- Request body of `POST /auth/register` as destructured at
`src/server.js:58`: only username, email, password and role are read. -/
structure RegisterBody where
  username : Option String
  email : Option String
  password : Option String
  role : Option String
deriving DecidableEq

/-- Request body of `POST /auth/login` (`src/server.js:80`); the claims only
concern requests in which both fields are present strings. -/
structure LoginBody where
  email : String
  password : String
deriving DecidableEq

/-- Request body of `POST /users` and `PUT /users/:id` as destructured at
`src/server.js:116,167`; every field may be absent. -/
structure UserBody where
  username : Option String
  email : Option String
  password : Option String
  balance : Option Int
  wallet : Option String
  seed : Option String
  transaction_history : Option (List TransactionBody)
  role : Option String
deriving DecidableEq

/-- Validation of a freshly built user document at `save()` time
(`src/server.js:19-34`): username, email, password required (Mongoose
`required` rejects the empty string on String paths), role in its enum, and
every embedded transaction valid.  `txs` is the raw body list so that a
missing `amount` is still detected after casting. -/
def validDraft (u : StoredUser) (txs : List TransactionBody) : Bool :=
  u.username != "" && u.email != "" && u.password != ""
    && validRole u.role && txs.all validTxBody

/-- Serialization of a transaction subdocument by `res.json`. -/
def serializeTransaction (t : Transaction) : Json :=
  Json.obj [("date", Json.str t.date), ("amount", Json.num t.amount),
            ("recipient", Json.str t.recipient), ("status", Json.str t.status)]

/-- Serialization of a full user document by `res.json(user)`: every schema
path is included, the stored password hash among them. -/
def serializeUser (u : StoredUser) : Json :=
  Json.obj [("_id", Json.str u.id), ("username", Json.str u.username),
            ("email", Json.str u.email), ("password", Json.str u.password),
            ("balance", Json.num u.balance), ("wallet", Json.str u.wallet),
            ("seed", Json.str u.seed),
            ("transaction_history", Json.arr (u.transaction_history.map serializeTransaction)),
            ("role", Json.str u.role)]

/-- The user document built by the register handler (`src/server.js:69`):
`new User({ username, email, password: hashedPassword, role })`, with schema
defaults for the remaining fields and a fresh system-assigned id. -/
def registerDoc (st : Store) (b : RegisterBody) : StoredUser :=
  { id := toString st.nextId
    username := b.username.getD ""
    email := b.email.getD ""
    password := bcryptHash (b.password.getD "")
    balance := 0
    wallet := ""
    seed := ""
    transaction_history := []
    role := b.role.getD "user" }

/-- Model of `POST /auth/register` (`src/server.js:56-75`): reject 400 if the
email is already present; reject 400 if no password is supplied (bcrypt.hash
throws on undefined input, caught by the handler); otherwise hash the
password, save the new user (validating the schema) and return 201 with the
full saved document. -/
def registerHandler (st : Store) (b : RegisterBody) : Response × Store :=
  match findOneByEmail st.users (b.email.getD "") with
  | some _ => (dupEmailResponse, st)
  | none =>
    match b.password with
    | none => ({ status := 400, body := errJson "data and salt arguments required" }, st)
    | some _ =>
      if validDraft (registerDoc st b) [] then
        ({ status := 201, body := serializeUser (registerDoc st b) },
         { users := st.users ++ [registerDoc st b], nextId := st.nextId + 1 })
      else
        ({ status := 400, body := errJson "User validation failed" }, st)

/-- The redacted user object of the login success response
(`src/server.js:96-101`): only id, username, email and role are serialized. -/
def loginProfileJson (u : StoredUser) : Json :=
  Json.obj [("id", Json.str u.id), ("username", Json.str u.username),
            ("email", Json.str u.email), ("role", Json.str u.role)]

/-- Compact wire encoding of a token (opaque to every claim). -/
def tokenToString (t : Token) : String :=
  t.payload.id ++ "." ++ t.payload.role ++ "." ++ toString t.payload.iat
    ++ "." ++ toString t.payload.exp ++ "." ++ t.sig

/-- Model of `POST /auth/login` (`src/server.js:78-106`): look up by email;
if absent, 400 Invalid credentials; if the bcrypt comparison fails, the same
400 Invalid credentials; otherwise sign a 1-day token and return 200 with the
token and the redacted user object.  Login never mutates the store. -/
def loginHandler (secret : String) (now : Nat) (st : Store) (b : LoginBody) : Response :=
  match findOneByEmail st.users b.email with
  | none => invalidCredentialsResponse
  | some user =>
    if bcryptCompare b.password user.password then
      { status := 200,
        body := Json.obj [("message", Json.str "Login successful"),
                          ("token", Json.str (tokenToString (jwtSign secret user.id user.role now))),
                          ("user", loginProfileJson user)] }
    else
      invalidCredentialsResponse

/-- The user document built by the admin create handler
(`src/server.js:116-123`): the password is hashed only when truthy (a missing
or empty password leaves the placeholder `""`), every other absent field
takes its schema default, the transaction list is cast. -/
def adminCreateDoc (st : Store) (b : UserBody) : StoredUser :=
  { id := toString st.nextId
    username := b.username.getD ""
    email := b.email.getD ""
    password :=
      match b.password with
      | some pw => if pw == "" then "" else bcryptHash pw
      | none => ""
    balance := b.balance.getD 0
    wallet := b.wallet.getD ""
    seed := b.seed.getD ""
    transaction_history := (b.transaction_history.getD []).map castTransaction
    role := b.role.getD "user" }

/-- Model of `POST /users` (`src/server.js:111-129`): admin-only guard, then
build the document and save it; `save()` enforces the schema (required
fields, enums, subdocument constraints) and the unique email index, and any
failure is caught as a 400. -/
def createUserHandler (st : Store) (p : Principal) (b : UserBody) : Response × Store :=
  if p.role != "admin" then (adminOnlyResponse, st)
  else
    if validDraft (adminCreateDoc st b) (b.transaction_history.getD [])
        && (findOneByEmail st.users (adminCreateDoc st b).email).isNone then
      ({ status := 201, body := serializeUser (adminCreateDoc st b) },
       { users := st.users ++ [adminCreateDoc st b], nextId := st.nextId + 1 })
    else
      ({ status := 400, body := errJson "User validation failed" }, st)

/-- Model of `GET /users` (`src/server.js:132-142`): admin-only guard, then
the full serialized collection. -/
def listUsersHandler (st : Store) (p : Principal) : Response :=
  if p.role != "admin" then adminOnlyResponse
  else { status := 200, body := Json.arr (st.users.map serializeUser) }

/-- Model of `GET /users/:id` (`src/server.js:145-158`): self-or-admin guard,
then 404 if the id is absent, else 200 with the full serialized document. -/
def getUserHandler (st : Store) (p : Principal) (tid : String) : Response :=
  if p.id != tid && p.role != "admin" then forbiddenResponse
  else
    match findById st.users tid with
    | none => userNotFoundResponse
    | some u => { status := 200, body := serializeUser u }

/-- The hash stored by the update handler (`src/server.js:170-173`): the
password path enters `updateData` only when the supplied password is truthy,
in which case it is bcrypt-hashed. -/
def hashedUpdate (pw : Option String) : Option String :=
  match pw with
  | some s => if s == "" then none else some (bcryptHash s)
  | none => none

/-- Partial merge applied by `findByIdAndUpdate` (`src/server.js:167-179`):
fields absent from the body (destructured as `undefined` and stripped by
Mongoose before the update) keep their stored values; provided fields
replace them, `transaction_history` wholesale. -/
def applyUpdate (u : StoredUser) (b : UserBody) : StoredUser :=
  { id := u.id
    username := b.username.getD u.username
    email := b.email.getD u.email
    password := (hashedUpdate b.password).getD u.password
    balance := b.balance.getD u.balance
    wallet := b.wallet.getD u.wallet
    seed := b.seed.getD u.seed
    transaction_history :=
      (b.transaction_history.map (fun ts => ts.map castTransaction)).getD u.transaction_history
    role := b.role.getD u.role }

/-- Update validation run by `runValidators: true` together with the unique
email index: each path that the update sets is re-checked (required
non-empty strings, role enum, subdocument constraints); an email update must
not collide with another stored user. -/
def validUpdateBody (st : Store) (tid : String) (b : UserBody) : Bool :=
  (match b.username with
   | some s => s != ""
   | none => true) &&
  (match b.email with
   | some e => e != "" && st.users.all (fun v => v.id == tid || v.email != e)
   | none => true) &&
  (match b.role with
   | some r => validRole r
   | none => true) &&
  (match b.transaction_history with
   | some ts => ts.all validTxBody
   | none => true)

/-- Model of `PUT /users/:id` (`src/server.js:161-187`): self-or-admin guard,
then `findByIdAndUpdate` with `runValidators` (update validation happens
before the document lookup, so an invalid body is a 400 even for a missing
id), 404 when the id is absent, else the merged document is stored and
returned (`new: true`). -/
def updateUserHandler (st : Store) (p : Principal) (tid : String) (b : UserBody) :
    Response × Store :=
  if p.id != tid && p.role != "admin" then (forbiddenResponse, st)
  else if validUpdateBody st tid b then
    match findById st.users tid with
    | none => (userNotFoundResponse, st)
    | some u =>
      ({ status := 200, body := serializeUser (applyUpdate u b) },
       { users := st.users.map (fun v => if v.id == tid then applyUpdate v b else v),
         nextId := st.nextId })
  else
    ({ status := 400, body := errJson "Validation failed" }, st)

/-- Model of `DELETE /users/:id` (`src/server.js:190-203`): self-or-admin
guard, 404 when the id is absent, else the document is removed. -/
def deleteUserHandler (st : Store) (p : Principal) (tid : String) : Response × Store :=
  if p.id != tid && p.role != "admin" then (forbiddenResponse, st)
  else
    match findById st.users tid with
    | none => (userNotFoundResponse, st)
    | some _ =>
      ({ status := 200, body := Json.obj [("message", Json.str "User deleted successfully")] },
       { users := st.users.filter (fun v => v.id != tid), nextId := st.nextId })

/-- Model of `PATCH /users/:id/transactions` (`src/server.js:206-225`):
self-or-admin guard, then `findByIdAndUpdate` with `$push` and
`runValidators` (the pushed subdocument is validated before the lookup), 404
when the id is absent, else the cast transaction is appended at the end of
the stored history and the updated document returned. -/
def appendTransactionHandler (st : Store) (p : Principal) (tid : String) (b : TransactionBody) :
    Response × Store :=
  if p.id != tid && p.role != "admin" then (forbiddenResponse, st)
  else if validTxBody b then
    match findById st.users tid with
    | none => (userNotFoundResponse, st)
    | some u =>
      ({ status := 200,
         body := serializeUser
           { u with transaction_history := u.transaction_history ++ [castTransaction b] } },
       { users := st.users.map (fun v =>
           if v.id == tid then
             { v with transaction_history := v.transaction_history ++ [castTransaction b] }
           else v),
         nextId := st.nextId })
  else
    ({ status := 400, body := errJson "Validation failed" }, st)

/-- One exposed operation of the API: the eight routes of `src/server.js`,
with the principal of the protected ones already authenticated by the
middleware. -/
inductive Op where
  | register (b : RegisterBody)
  | login (b : LoginBody)
  | createUser (p : Principal) (b : UserBody)
  | listUsers (p : Principal)
  | getUser (p : Principal) (tid : String)
  | updateUser (p : Principal) (tid : String) (b : UserBody)
  | deleteUser (p : Principal) (tid : String)
  | appendTransaction (p : Principal) (tid : String) (b : TransactionBody)

/-- Small-step semantics of the whole server: dispatch one operation against
the store. -/
def step (secret : String) (now : Nat) (st : Store) (op : Op) : Response × Store :=
  match op with
  | Op.register b => registerHandler st b
  | Op.login b => (loginHandler secret now st b, st)
  | Op.createUser p b => createUserHandler st p b
  | Op.listUsers p => (listUsersHandler st p, st)
  | Op.getUser p tid => (getUserHandler st p tid, st)
  | Op.updateUser p tid b => updateUserHandler st p tid b
  | Op.deleteUser p tid => deleteUserHandler st p tid
  | Op.appendTransaction p tid b => appendTransactionHandler st p tid b

/-- Marker for the operations the append-only property can hold of: every
operation except an update whose body provides a `transaction_history`
replacement. -/
def opKeepsStoredHistory : Op → Bool
  | Op.updateUser _ _ b => b.transaction_history.isNone
  | _ => true

/-! Concrete data shared by witnesses and counterexamples. -/

/-- A stored transaction used by concrete stores. -/
def tx0 : Transaction :=
  { date := "2024-01-01", amount := 5, recipient := "bob", status := "Success" }

/-- A concrete stored user with one transaction in her ledger. -/
def demoUser : StoredUser :=
  { id := "1", username := "alice", email := "alice@x", password := bcryptHash "right",
    balance := 0, wallet := "", seed := "", transaction_history := [tx0], role := "user" }

/-- A concrete store holding `demoUser`. -/
def demoStore : Store := { users := [demoUser], nextId := 2 }

/-- A concrete admin principal distinct from `demoUser`. -/
def demoAdmin : Principal := { id := "9", role := "admin" }

/-- The principal of `demoUser` herself. -/
def demoSelf : Principal := { id := "1", role := "user" }

/-! Generic list lemmas about the store operations. -/

/-- The inline guard of the four protected single-account handlers is the
negation of the self-or-admin rule. -/
theorem selfOrAdmin_guard (p : Principal) (tid : String) :
    (p.id != tid && p.role != "admin") = !(selfOrAdmin p tid) := by
  simp [selfOrAdmin, Bool.not_or, bne]

/-- Finding an element in an extended list is unchanged when it was already
found in the original prefix. -/
theorem find_append_of_found {α : Type} {p : α → Bool} {l₁ : List α} (l₂ : List α) {u : α}
    (h : l₁.find? p = some u) : (l₁ ++ l₂).find? p = some u := by
  rw [List.find?_append, h]
  rfl

/-- Filtering by a predicate implied by the search predicate does not change
the result of the search. -/
theorem find_filter_of_imp {α : Type} {p q : α → Bool} {l : List α}
    (himp : ∀ x, p x = true → q x = true) :
    (l.filter q).find? p = l.find? p := by
  induction l with
  | nil => rfl
  | cons a l ih =>
    cases hq : q a with
    | true =>
      rw [List.filter_cons_of_pos (by simp [hq])]
      cases hp : p a with
      | true => rw [List.find?_cons_of_pos _ hp, List.find?_cons_of_pos _ hp]
      | false => rw [List.find?_cons_of_neg _ (by simp [hp]), List.find?_cons_of_neg _ (by simp [hp]), ih]
    | false =>
      have hp : p a = false := by
        cases hpa : p a with
        | true => rw [himp a hpa] at hq; cases hq
        | false => rfl
      rw [List.filter_cons_of_neg (by simp [hq]), List.find?_cons_of_neg _ (by simp [hp]), ih]

/-- Searching a list filtered by a predicate everywhere false on matches of
the search predicate finds nothing. -/
theorem find_filter_none {α : Type} {p q : α → Bool} {l : List α}
    (himp : ∀ x, p x = true → q x = false) :
    (l.filter q).find? p = none := by
  induction l with
  | nil => rfl
  | cons a l ih =>
    cases hq : q a with
    | true =>
      have hp : p a = false := by
        cases hpa : p a with
        | true => rw [himp a hpa] at hq; cases hq
        | false => rfl
      rw [List.filter_cons_of_pos (by simp [hq]), List.find?_cons_of_neg _ (by simp [hp]), ih]
    | false =>
      rw [List.filter_cons_of_neg (by simp [hq]), ih]

/-- Lookup by id after an id-preserving conditional rewrite of every store
entry hits the rewritten image of the entry found before. -/
theorem findById_map_guarded (l : List StoredUser) (tid id : String)
    (g : StoredUser → StoredUser) (hg : ∀ v, (g v).id = v.id) :
    findById (l.map (fun v => if v.id == tid then g v else v)) id =
      (findById l id).map (fun v => if v.id == tid then g v else v) := by
  unfold findById
  rw [List.find?_map]
  have hpred : ((fun u => u.id == id) ∘ (fun v => if v.id == tid then g v else v))
      = (fun v => v.id == id) := by
    funext v
    cases h : (v.id == tid) with
    | true => simp [Function.comp, h, hg]
    | false => simp [Function.comp, h]
  rw [hpred]

/-! Claims. -/

/-- C1: for every authenticated request to get user, update user, delete
user, or append transaction with principal `p` and target user id `tid`, the
request is allowed past the authorization check (that is, the handler does
not answer 403 Forbidden) if and only if `p.id` equals `tid` or `p.role` is
admin, and this same self-or-admin rule is what all four handlers test. -/
theorem claimC1_selfOrAdmin_uniform (st : Store) (p : Principal) (tid : String)
    (bu : UserBody) (bt : TransactionBody) :
    ((getUserHandler st p tid).status == 403) = !(selfOrAdmin p tid)
  ∧ (((updateUserHandler st p tid bu).1.status == 403) = !(selfOrAdmin p tid))
  ∧ (((deleteUserHandler st p tid).1.status == 403) = !(selfOrAdmin p tid))
  ∧ (((appendTransactionHandler st p tid bt).1.status == 403) = !(selfOrAdmin p tid)) := by
  refine ⟨?_, ?_, ?_, ?_⟩
  · unfold getUserHandler
    rw [selfOrAdmin_guard]
    cases h : selfOrAdmin p tid with
    | true =>
      simp only [Bool.not_true, Bool.false_eq_true, if_false]
      cases findById st.users tid with
      | none => rfl
      | some u => rfl
    | false => rfl
  · unfold updateUserHandler
    rw [selfOrAdmin_guard]
    cases h : selfOrAdmin p tid with
    | true =>
      simp only [Bool.not_true, Bool.false_eq_true, if_false]
      cases validUpdateBody st tid bu with
      | true =>
        simp only [if_true]
        cases findById st.users tid with
        | none => rfl
        | some u => rfl
      | false => rfl
    | false => rfl
  · unfold deleteUserHandler
    rw [selfOrAdmin_guard]
    cases h : selfOrAdmin p tid with
    | true =>
      simp only [Bool.not_true, Bool.false_eq_true, if_false]
      cases findById st.users tid with
      | none => rfl
      | some u => rfl
    | false => rfl
  · unfold appendTransactionHandler
    rw [selfOrAdmin_guard]
    cases h : selfOrAdmin p tid with
    | true =>
      simp only [Bool.not_true, Bool.false_eq_true, if_false]
      cases validTxBody bt with
      | true =>
        simp only [if_true]
        cases findById st.users tid with
        | none => rfl
        | some u => rfl
      | false => rfl
    | false => rfl

/-- C3: every login attempt that fails because the email is unknown and
every login attempt that fails because the password does not match the
stored hash produce the identical `invalidCredentialsResponse` (status 400,
body `{ error: "Invalid credentials" }`), so the two causes are
indistinguishable to the caller. -/
theorem claimC3_login_uniform_failure (secret : String) (now : Nat) (st : Store) (b : LoginBody)
    (h : findOneByEmail st.users b.email = none ∨
         ∃ u, findOneByEmail st.users b.email = some u
              ∧ bcryptCompare b.password u.password = false) :
    loginHandler secret now st b = invalidCredentialsResponse := by
  unfold loginHandler
  rcases h with h | ⟨u, hu, hc⟩
  · rw [h]
  · rw [hu]
    simp only [hc, Bool.false_eq_true, if_false]

/-- Witness for C3: against a concrete store, a login with an unknown email
and a login with a wrong password for a stored user both yield the same
`invalidCredentialsResponse`. -/
theorem claimC3_witness :
    loginHandler "s" 0 demoStore { email := "nobody@x", password := "p" }
      = invalidCredentialsResponse
  ∧ loginHandler "s" 0 demoStore { email := "alice@x", password := "wrong" }
      = invalidCredentialsResponse :=
  ⟨claimC3_login_uniform_failure "s" 0 demoStore { email := "nobody@x", password := "p" }
     (Or.inl (by decide)),
   claimC3_login_uniform_failure "s" 0 demoStore { email := "alice@x", password := "wrong" }
     (Or.inr ⟨demoUser, by decide, by decide⟩)⟩

/-- C4: every registration request whose email already exists in the user
collection fails with the duplicate-email response and leaves the user
collection unchanged. -/
theorem claimC4_duplicate_email (st : Store) (b : RegisterBody) (u : StoredUser)
    (h : findOneByEmail st.users (b.email.getD "") = some u) :
    registerHandler st b = (dupEmailResponse, st) := by
  unfold registerHandler
  rw [h]

/-- Witness for C4: registering a second account with the email of
`demoUser` is rejected with `dupEmailResponse` and the store is returned
unchanged. -/
theorem claimC4_witness :
    registerHandler demoStore
      { username := some "mallory", email := some "alice@x",
        password := some "pw", role := none }
      = (dupEmailResponse, demoStore) :=
  claimC4_duplicate_email demoStore
    { username := some "mallory", email := some "alice@x",
      password := some "pw", role := none }
    demoUser (by decide)

/-- C6: a token issued by `jwtSign secret id role t0` authenticates to
exactly the principal `{id, role}` at any time strictly before its expiry
(`t0 + 1 day`), and at any time strictly after the expiry authentication
fails with the Invalid token rejection. -/
theorem claimC6_token_roundtrip (secret id role : String) (t0 t : Nat) :
    (t < t0 + tokenLifetime →
      authMiddleware secret t (some (jwtSign secret id role t0)) =
        Except.ok { id := id, role := role })
  ∧ (t0 + tokenLifetime < t →
      authMiddleware secret t (some (jwtSign secret id role t0)) =
        Except.error invalidTokenResponse) := by
  constructor
  · intro h
    simp [authMiddleware, jwtSign, jwtVerify, h]
  · intro h
    have hn : ¬ (t < t0 + tokenLifetime) := by omega
    simp [authMiddleware, jwtSign, jwtVerify, hn]

/-- Witness for C6: at time 1 a token issued at time 0 authenticates to its
subject and role; at time 90000 (past the 86400-second lifetime) the same
token is rejected as invalid. -/
theorem claimC6_witness :
    authMiddleware "s" 1 (some (jwtSign "s" "u7" "user" 0)) =
      Except.ok { id := "u7", role := "user" }
  ∧ authMiddleware "s" 90000 (some (jwtSign "s" "u7" "user" 0)) =
      Except.error invalidTokenResponse :=
  ⟨(claimC6_token_roundtrip "s" "u7" "user" 0 1).1 (by decide),
   (claimC6_token_roundtrip "s" "u7" "user" 0 90000).2 (by decide)⟩

/-- C7: for an existing user and an authorized principal, appending a
transaction with amount -1 is rejected with the 400 validation response and
the store (hence the history length) is unchanged, while appending one with
amount 0, status "Pending" and non-empty date and recipient succeeds with
status 200 and the stored history becomes the old history with exactly the
new entry appended at the end. -/
theorem claimC7_append_validation (st : Store) (p : Principal) (tid : String) (u : StoredUser)
    (d r : String) (hfind : findById st.users tid = some u)
    (hp : selfOrAdmin p tid = true) (hd : d ≠ "") (hr : r ≠ "") :
    (appendTransactionHandler st p tid
       { date := some d, amount := some (-1), recipient := some r, status := some "Pending" }
       = ({ status := 400, body := errJson "Validation failed" }, st))
  ∧ ((appendTransactionHandler st p tid
        { date := some d, amount := some 0, recipient := some r, status := some "Pending" }).1.status
        = 200
     ∧ findById (appendTransactionHandler st p tid
          { date := some d, amount := some 0, recipient := some r, status := some "Pending" }).2.users
          tid
        = some { u with transaction_history := u.transaction_history ++
            [{ date := d, amount := 0, recipient := r, status := "Pending" }] }) := by
  have hguard : (p.id != tid && p.role != "admin") = false := by
    rw [selfOrAdmin_guard, hp]
    rfl
  have hdb : (d != "") = true := by
    simp [bne, beq_eq_false_iff_ne.mpr hd]
  have hrb : (r != "") = true := by
    simp [bne, beq_eq_false_iff_ne.mpr hr]
  have hbad : validTxBody
      { date := some d, amount := some (-1), recipient := some r, status := some "Pending" }
      = false := by
    simp [validTxBody]
  have hgood : validTxBody
      { date := some d, amount := some 0, recipient := some r, status := some "Pending" }
      = true := by
    simp [validTxBody, validStatus, hdb, hrb]
  refine ⟨?_, ?_, ?_⟩
  · simp [appendTransactionHandler, hguard, hbad]
  · simp [appendTransactionHandler, hguard, hgood, hfind]
  · simp only [appendTransactionHandler, hguard, Bool.false_eq_true, if_false, hgood, if_true,
      hfind]
    rw [findById_map_guarded st.users tid tid
      (fun v => { v with transaction_history := v.transaction_history ++
        [castTransaction
          { date := some d, amount := some 0, recipient := some r, status := some "Pending" }] })
      (fun v => rfl)]
    rw [hfind]
    have hfind2 : st.users.find? (fun v => v.id == tid) = some u := hfind
    have hid0 := List.find?_some hfind2
    have hid : u.id = tid := by simpa using hid0
    simp [castTransaction, hid]

/-- Witness for C7: against the concrete store, the amount -1 append is
rejected with the store unchanged, and the amount 0 append succeeds and
appends exactly one entry after the existing one. -/
theorem claimC7_witness :
    (appendTransactionHandler demoStore demoSelf "1"
       { date := some "2024-02-02", amount := some (-1), recipient := some "carol",
         status := some "Pending" }
       = ({ status := 400, body := errJson "Validation failed" }, demoStore))
  ∧ ((appendTransactionHandler demoStore demoSelf "1"
        { date := some "2024-02-02", amount := some 0, recipient := some "carol",
          status := some "Pending" }).1.status = 200
     ∧ findById (appendTransactionHandler demoStore demoSelf "1"
          { date := some "2024-02-02", amount := some 0, recipient := some "carol",
            status := some "Pending" }).2.users "1"
        = some { demoUser with transaction_history := demoUser.transaction_history ++
            [{ date := "2024-02-02", amount := 0, recipient := "carol", status := "Pending" }] }) :=
  claimC7_append_validation demoStore demoSelf "1" demoUser "2024-02-02" "carol"
    (by decide) (by decide) (by decide) (by decide)

/-- C8: for an authorized valid update, a missing target id fails with the
404 Not found response and an unchanged store, while for an existing user
the handler returns the fully updated entity, stores it, and every field not
provided in the partial body keeps its previous value. -/
theorem claimC8_update_partial_merge (st : Store) (p : Principal) (tid : String) (b : UserBody)
    (hg : selfOrAdmin p tid = true) (hv : validUpdateBody st tid b = true) :
    (findById st.users tid = none →
       updateUserHandler st p tid b = (userNotFoundResponse, st))
  ∧ (∀ u, findById st.users tid = some u →
       (updateUserHandler st p tid b).1
           = { status := 200, body := serializeUser (applyUpdate u b) }
       ∧ findById (updateUserHandler st p tid b).2.users tid = some (applyUpdate u b)
       ∧ (b.username = none → (applyUpdate u b).username = u.username)
       ∧ (b.email = none → (applyUpdate u b).email = u.email)
       ∧ (b.password = none → (applyUpdate u b).password = u.password)
       ∧ (b.balance = none → (applyUpdate u b).balance = u.balance)
       ∧ (b.wallet = none → (applyUpdate u b).wallet = u.wallet)
       ∧ (b.seed = none → (applyUpdate u b).seed = u.seed)
       ∧ (b.transaction_history = none →
            (applyUpdate u b).transaction_history = u.transaction_history)
       ∧ (b.role = none → (applyUpdate u b).role = u.role)) := by
  have hguard : (p.id != tid && p.role != "admin") = false := by
    rw [selfOrAdmin_guard, hg]
    rfl
  constructor
  · intro hn
    simp [updateUserHandler, hguard, hv, hn]
  · intro u hu
    refine ⟨?_, ?_, ?_, ?_, ?_, ?_, ?_, ?_, ?_, ?_⟩
    · simp [updateUserHandler, hguard, hv, hu]
    · simp only [updateUserHandler, hguard, Bool.false_eq_true, if_false, hv, if_true, hu]
      show findById (st.users.map fun v => if v.id == tid then applyUpdate v b else v) tid
          = some (applyUpdate u b)
      rw [findById_map_guarded st.users tid tid (fun v => applyUpdate v b) (fun v => rfl)]
      rw [hu]
      have hu2 : st.users.find? (fun v => v.id == tid) = some u := hu
      have hid : u.id = tid := by simpa using List.find?_some hu2
      simp [hid]
    · intro h
      simp [applyUpdate, h]
    · intro h
      simp [applyUpdate, h]
    · intro h
      simp [applyUpdate, hashedUpdate, h]
    · intro h
      simp [applyUpdate, h]
    · intro h
      simp [applyUpdate, h]
    · intro h
      simp [applyUpdate, h]
    · intro h
      simp [applyUpdate, h]
    · intro h
      simp [applyUpdate, h]

/-- Update body used by the C8 witness: only the username is provided. -/
def w8Body : UserBody :=
  { username := some "alicia", email := none, password := none, balance := none,
    wallet := none, seed := none, transaction_history := none, role := none }

/-- Witness for C8: updating a missing id answers 404 with the store
unchanged; updating `demoUser` with only a username returns and stores the
merged entity. -/
theorem claimC8_witness :
    updateUserHandler demoStore demoAdmin "2" w8Body = (userNotFoundResponse, demoStore)
  ∧ (updateUserHandler demoStore demoSelf "1" w8Body).1
      = { status := 200, body := serializeUser (applyUpdate demoUser w8Body) }
  ∧ findById (updateUserHandler demoStore demoSelf "1" w8Body).2.users "1"
      = some (applyUpdate demoUser w8Body) :=
  ⟨(claimC8_update_partial_merge demoStore demoAdmin "2" w8Body (by decide) (by decide)).1
     (by decide),
   ((claimC8_update_partial_merge demoStore demoSelf "1" w8Body (by decide) (by decide)).2
     demoUser (by decide)).1,
   (((claimC8_update_partial_merge demoStore demoSelf "1" w8Body (by decide) (by decide)).2
     demoUser (by decide)).2).1⟩

/-- Create body used against C9: a well-formed admin creation draft that
supplies no password. -/
def c9Body : UserBody :=
  { username := some "svc", email := some "svc@x", password := none, balance := none,
    wallet := none, seed := none, transaction_history := none, role := none }

/-- Counterexample to C9: an admin-authorized creation with no password does
not succeed.  The handler does build the document with the empty-string
placeholder hash, but Mongoose `required: true` on the `password` path
rejects the empty string at `save()`, so the operation answers 400 and no
user is stored. -/
theorem claimC9_counterexample :
    (adminCreateDoc demoStore c9Body).password = ""
  ∧ (createUserHandler demoStore demoAdmin c9Body).1.status = 400
  ∧ (createUserHandler demoStore demoAdmin c9Body).2 = demoStore :=
  ⟨rfl, rfl, by decide⟩

/-- C9 amended: an admin-authorized creation with a missing (or empty)
password builds the empty-string placeholder but fails with a 400 validation
response, leaving the store unchanged, because the schema requires a
non-empty password; when a non-empty password is supplied it is hashed
before storage. -/
theorem claimC9_admin_create_password (st : Store) (p : Principal) (b : UserBody)
    (hadmin : p.role = "admin") :
    ((b.password = none ∨ b.password = some "") →
       (adminCreateDoc st b).password = ""
       ∧ (createUserHandler st p b).1.status = 400
       ∧ (createUserHandler st p b).2 = st)
  ∧ (∀ pw, b.password = some pw → pw ≠ "" →
       (adminCreateDoc st b).password = bcryptHash pw) := by
  have hguard : (p.role != "admin") = false := by
    rw [hadmin]
    rfl
  constructor
  · intro h
    have hpw : (adminCreateDoc st b).password = "" := by
      rcases h with h | h <;> simp [adminCreateDoc, h]
    have hvd : validDraft (adminCreateDoc st b) (b.transaction_history.getD []) = false := by
      simp [validDraft, hpw]
    refine ⟨hpw, ?_, ?_⟩ <;> simp [createUserHandler, hguard, hvd]
  · intro pw hpw hne
    have hne2 : (pw == "") = false := beq_eq_false_iff_ne.mpr hne
    simp [adminCreateDoc, hpw, hne2]

/-- Create body used by the C9 witness: the same draft with a password. -/
def w9Body : UserBody :=
  { username := some "svc2", email := some "svc2@x", password := some "pw", balance := none,
    wallet := none, seed := none, transaction_history := none, role := none }

/-- Witness for C9 amended: the passwordless draft yields the placeholder,
a 400 and an unchanged store; the password-carrying draft is hashed. -/
theorem claimC9_witness :
    ((adminCreateDoc demoStore c9Body).password = ""
     ∧ (createUserHandler demoStore demoAdmin c9Body).1.status = 400
     ∧ (createUserHandler demoStore demoAdmin c9Body).2 = demoStore)
  ∧ (adminCreateDoc demoStore w9Body).password = bcryptHash "pw" :=
  ⟨(claimC9_admin_create_password demoStore demoAdmin c9Body rfl).1 (Or.inl rfl),
   (claimC9_admin_create_password demoStore demoAdmin w9Body rfl).2 "pw" rfl (by decide)⟩

/-- C10: the unauthenticated register operation stores the caller-supplied
role verbatim: whenever registration succeeds, the stored new user carries
exactly the role string of the request body, and instantiating it with
"admin" creates an administrator account with no authentication involved
(the register handler takes no principal). -/
theorem claimC10_register_role_verbatim (st : Store) (b : RegisterBody) (r : String)
    (hrole : b.role = some r) (hs : (registerHandler st b).1.status = 201) :
    (registerDoc st b).role = r
  ∧ (registerHandler st b).2.users = st.users ++ [registerDoc st b] := by
  constructor
  · simp [registerDoc, hrole]
  · unfold registerHandler at hs ⊢
    cases hfind : findOneByEmail st.users (b.email.getD "") with
    | some u =>
      rw [hfind] at hs
      simp [dupEmailResponse] at hs
    | none =>
      rw [hfind] at hs
      cases hb : b.password with
      | none =>
        rw [hb] at hs
        simp at hs
      | some pw =>
        rw [hb] at hs
        cases hvd : validDraft (registerDoc st b) [] with
        | true => simp
        | false =>
          rw [hvd] at hs
          simp at hs

/-- Register body exercising C10: an unauthenticated registration asking for
the admin role. -/
def c10Body : RegisterBody :=
  { username := some "eve", email := some "eve@x", password := some "pw", role := some "admin" }

/-- Witness for C10: registering with role "admin" against the concrete
store succeeds and appends a stored user whose role is "admin". -/
theorem claimC10_witness :
    (registerDoc demoStore c10Body).role = "admin"
  ∧ (registerHandler demoStore c10Body).2.users
      = demoStore.users ++ [registerDoc demoStore c10Body] :=
  claimC10_register_role_verbatim demoStore c10Body "admin" rfl (by decide)

/-- Full user serialization always exposes a "password" field holding the
stored hash. -/
theorem serializeUser_password_field (u : StoredUser) :
    Json.getField (serializeUser u) "password" = some (Json.str u.password) := rfl

/-- Register body for the C5 counterexample. -/
def c5Body : RegisterBody :=
  { username := some "bob", email := some "bob@x", password := some "hunter2", role := none }

/-- Counterexample to C5: a successful register response serializes the full
saved document, stored password hash included — its 201 payload carries a
"password" field equal to the hash that was just stored. -/
theorem claimC5_counterexample :
    (registerHandler demoStore c5Body).1.status = 201
  ∧ Json.getField (registerHandler demoStore c5Body).1.body "password"
      = some (Json.str (bcryptHash "hunter2"))
  ∧ (findById (registerHandler demoStore c5Body).2.users "2").map (fun u => u.password)
      = some (bcryptHash "hunter2") :=
  ⟨rfl, rfl, by decide⟩

/-- C5 amended: only the login success response returns a redacted profile —
its "user" object has no "password" (and no "seed") field — whereas a
successful register response always carries a "password" field equal to the
bcrypt hash of the submitted password. -/
theorem claimC5_only_login_redacts (secret : String) (now : Nat) (st : Store)
    (b : LoginBody) (u : StoredUser)
    (hfind : findOneByEmail st.users b.email = some u)
    (hok : bcryptCompare b.password u.password = true) :
    ((loginHandler secret now st b).status = 200
     ∧ Json.getField (loginHandler secret now st b).body "user" = some (loginProfileJson u)
     ∧ Json.getField (loginProfileJson u) "password" = none
     ∧ Json.getField (loginProfileJson u) "seed" = none)
  ∧ (∀ st2 b2 pw, b2.password = some pw → (registerHandler st2 b2).1.status = 201 →
       Json.getField (registerHandler st2 b2).1.body "password"
         = some (Json.str (bcryptHash pw))) := by
  constructor
  · unfold loginHandler
    simp only [hfind]
    rw [if_pos hok]
    exact ⟨rfl, rfl, rfl, rfl⟩
  · intro st2 b2 pw hpw hs
    unfold registerHandler at hs ⊢
    cases hfind2 : findOneByEmail st2.users (b2.email.getD "") with
    | some v =>
      rw [hfind2] at hs
      simp [dupEmailResponse] at hs
    | none =>
      rw [hfind2] at hs
      rw [hpw] at hs ⊢
      cases hvd : validDraft (registerDoc st2 b2) [] with
      | true =>
        show Json.getField (serializeUser (registerDoc st2 b2)) "password"
            = some (Json.str (bcryptHash pw))
        rw [serializeUser_password_field]
        simp [registerDoc, hpw]
      | false =>
        rw [hvd] at hs
        simp at hs

/-- Witness for C5 amended: a concrete successful login whose payload's
"user" object lacks password and seed fields. -/
theorem claimC5_witness :
    (loginHandler "s" 0 demoStore { email := "alice@x", password := "right" }).status = 200
  ∧ Json.getField (loginHandler "s" 0 demoStore { email := "alice@x", password := "right" }).body
      "user" = some (loginProfileJson demoUser)
  ∧ Json.getField (loginProfileJson demoUser) "password" = none
  ∧ Json.getField (loginProfileJson demoUser) "seed" = none :=
  (claimC5_only_login_redacts "s" 0 demoStore { email := "alice@x", password := "right" }
    demoUser (by decide) (by decide)).1

/-- Update body wiping the whole ledger: `PUT /users/:id` with
`transaction_history: []`. -/
def c2WipeBody : UserBody :=
  { username := none, email := none, password := none, balance := none,
    wallet := none, seed := none, transaction_history := some [], role := none }

/-- Counterexample to C2: the exposed update operation can erase previously
stored ledger entries.  Before the `PUT`, user "1" has the stored
transaction `tx0`; after an authorized update whose body carries
`transaction_history: []`, her stored history is empty, so the prior entry
is no longer present. -/
theorem claimC2_counterexample :
    (findById demoStore.users "1").map (fun u => u.transaction_history) = some [tx0]
  ∧ (findById (updateUserHandler demoStore demoSelf "1" c2WipeBody).2.users "1").map
      (fun u => u.transaction_history) = some [] := by
  decide

/-- C2 amended: for every exposed operation except an update whose body
provides a `transaction_history` replacement, the ledger is append-only:
whenever a user is present before and after the operation, the earlier
stored history is an unchanged prefix of the later one (entries are only
ever added at the end). -/
theorem claimC2_append_only (secret : String) (now : Nat) (st : Store) (op : Op)
    (uid : String) (u0 u1 : StoredUser)
    (hpres : opKeepsStoredHistory op = true)
    (h0 : findById st.users uid = some u0)
    (h1 : findById (step secret now st op).2.users uid = some u1) :
    ∃ added, u1.transaction_history = u0.transaction_history ++ added := by
  have same : findById st.users uid = some u1 →
      ∃ added, u1.transaction_history = u0.transaction_history ++ added := by
    intro h
    rw [h0] at h
    injection h with h
    exact ⟨[], by rw [List.append_nil, h]⟩
  have h0f : st.users.find? (fun v => v.id == uid) = some u0 := h0
  have appended : ∀ v : StoredUser, findById (st.users ++ [v]) uid = some u1 →
      ∃ added, u1.transaction_history = u0.transaction_history ++ added := by
    intro v h
    have hfarr : (st.users ++ [v]).find? (fun x => x.id == uid) = some u0 :=
      find_append_of_found [v] h0f
    have hform : (st.users ++ [v]).find? (fun x => x.id == uid) = some u1 := h
    have hcmp : some u0 = some u1 := hfarr.symm.trans hform
    injection hcmp with hcmp
    exact ⟨[], by rw [List.append_nil, hcmp]⟩
  cases op with
  | login b => exact same h1
  | listUsers p => exact same h1
  | getUser p tid => exact same h1
  | register b =>
    simp only [step] at h1
    unfold registerHandler at h1
    cases hf : findOneByEmail st.users (b.email.getD "") with
    | some v =>
      rw [hf] at h1
      exact same h1
    | none =>
      rw [hf] at h1
      cases hp : b.password with
      | none =>
        rw [hp] at h1
        exact same h1
      | some pw =>
        rw [hp] at h1
        cases hvd : validDraft (registerDoc st b) [] with
        | false =>
          rw [hvd] at h1
          exact same h1
        | true =>
          rw [hvd] at h1
          exact appended (registerDoc st b) h1
  | createUser p b =>
    simp only [step] at h1
    unfold createUserHandler at h1
    cases hg : (p.role != "admin") with
    | true =>
      rw [hg] at h1
      exact same h1
    | false =>
      rw [hg] at h1
      cases hvd : (validDraft (adminCreateDoc st b) (b.transaction_history.getD [])
          && (findOneByEmail st.users (adminCreateDoc st b).email).isNone) with
      | false =>
        rw [hvd] at h1
        exact same h1
      | true =>
        rw [hvd] at h1
        exact appended (adminCreateDoc st b) h1
  | updateUser p tid b =>
    have hnone : b.transaction_history = none := Option.isNone_iff_eq_none.mp hpres
    simp only [step] at h1
    unfold updateUserHandler at h1
    cases hg : (p.id != tid && p.role != "admin") with
    | true =>
      rw [hg] at h1
      exact same h1
    | false =>
      rw [hg] at h1
      cases hv : validUpdateBody st tid b with
      | false =>
        rw [hv] at h1
        exact same h1
      | true =>
        rw [hv] at h1
        cases hf : findById st.users tid with
        | none =>
          rw [hf] at h1
          exact same h1
        | some u =>
          rw [hf] at h1
          have h1m : findById
              (st.users.map fun v => if v.id == tid then applyUpdate v b else v) uid
              = some u1 := h1
          rw [findById_map_guarded st.users tid uid (fun v => applyUpdate v b)
            (fun v => rfl)] at h1m
          rw [h0] at h1m
          simp only [Option.map] at h1m
          injection h1m with h1m
          cases hid : (u0.id == tid) with
          | false =>
            rw [hid, if_neg (by simp)] at h1m
            exact ⟨[], by rw [List.append_nil, h1m]⟩
          | true =>
            rw [hid, if_pos rfl] at h1m
            refine ⟨[], ?_⟩
            rw [List.append_nil, ← h1m]
            simp [applyUpdate, hnone]
  | deleteUser p tid =>
    simp only [step] at h1
    unfold deleteUserHandler at h1
    cases hg : (p.id != tid && p.role != "admin") with
    | true =>
      rw [hg] at h1
      exact same h1
    | false =>
      rw [hg] at h1
      cases hf : findById st.users tid with
      | none =>
        rw [hf] at h1
        exact same h1
      | some u =>
        rw [hf] at h1
        cases huid : (uid == tid) with
        | true =>
          have ht : uid = tid := by simpa using huid
          have hgone : (st.users.filter (fun v => v.id != tid)).find?
              (fun v => v.id == uid) = none := by
            apply find_filter_none
            intro x hx
            have hx2 : x.id = uid := by simpa using hx
            simp [bne, hx2, ht]
          have h1f : (st.users.filter (fun v => v.id != tid)).find?
              (fun v => v.id == uid) = some u1 := h1
          rw [hgone] at h1f
          cases h1f
        | false =>
          have ht : uid ≠ tid := by simpa using huid
          have hkeep : (st.users.filter (fun v => v.id != tid)).find?
              (fun v => v.id == uid) = st.users.find? (fun v => v.id == uid) := by
            apply find_filter_of_imp
            intro x hx
            have hx2 : x.id = uid := by simpa using hx
            have hxt : (x.id == tid) = false := by
              rw [hx2]
              exact beq_eq_false_iff_ne.mpr ht
            simp [bne, hxt]
          have h1f : (st.users.filter (fun v => v.id != tid)).find?
              (fun v => v.id == uid) = some u1 := h1
          rw [hkeep] at h1f
          exact same h1f
  | appendTransaction p tid b =>
    simp only [step] at h1
    unfold appendTransactionHandler at h1
    cases hg : (p.id != tid && p.role != "admin") with
    | true =>
      rw [hg] at h1
      exact same h1
    | false =>
      rw [hg] at h1
      cases hv : validTxBody b with
      | false =>
        rw [hv] at h1
        exact same h1
      | true =>
        rw [hv] at h1
        cases hf : findById st.users tid with
        | none =>
          rw [hf] at h1
          exact same h1
        | some u =>
          rw [hf] at h1
          have h1m : findById
              (st.users.map fun v =>
                if v.id == tid then
                  { v with transaction_history := v.transaction_history ++ [castTransaction b] }
                else v) uid
              = some u1 := h1
          rw [findById_map_guarded st.users tid uid
            (fun v => { v with transaction_history :=
              v.transaction_history ++ [castTransaction b] })
            (fun v => rfl)] at h1m
          rw [h0] at h1m
          simp only [Option.map] at h1m
          injection h1m with h1m
          cases hid : (u0.id == tid) with
          | false =>
            rw [hid, if_neg (by simp)] at h1m
            exact ⟨[], by rw [List.append_nil, h1m]⟩
          | true =>
            rw [hid, if_pos rfl] at h1m
            exact ⟨[castTransaction b], by rw [← h1m]⟩

/-- Transaction body used by the C2 witness. -/
def w2Tx : TransactionBody :=
  { date := some "2024-03-03", amount := some 2, recipient := some "dan", status := none }

/-- The stored state of user "1" after the C2 witness append. -/
def w2After : StoredUser :=
  { demoUser with transaction_history := demoUser.transaction_history ++ [castTransaction w2Tx] }

/-- Witness for C2 amended: an authorized append of a valid transaction to
the concrete store extends the stored ledger of user "1" by exactly the new
entry, the old entry remaining as a prefix. -/
theorem claimC2_witness :
    ∃ added, w2After.transaction_history = demoUser.transaction_history ++ added :=
  claimC2_append_only "s" 0 demoStore (Op.appendTransaction demoSelf "1" w2Tx) "1"
    demoUser w2After (by decide) (by decide) (by decide)

end XcceptaPay
